import Mathlib

/-!
# Verification of the AiCopilotDP controller core

A shallow embedding of the process-supervision core of the AiCopilotDP
repository: the tool registry (`load_config`, `get_tool_by_id`), the
process supervisor (`launch_tool`, `on_tool_finished`, `on_tool_error`),
the shutdown confirmation (`closeEvent`), and the file-based status
channel readers of the two managed tools (`check_engine_status` of
FakeTool and `update_progress_from_status` of Vision_Tester).

Side effects of the Python methods (dialogs, window hide/show, process
spawns) are modelled as an ordered trace of `Action` values returned
alongside the new state.  The Python `dict` holding active processes is
modelled as an association list with insert-replaces / erase semantics.
-/

namespace AiCopilot

/-- A registered tool entry of `studio_config.json` (the fields the
controller reads: `id`, `display_name`, `path`, `entry_point`,
`enabled`). -/
structure Tool where
  id : String
  display_name : String
  path : String
  entry_point : String
  enabled : Bool
deriving DecidableEq, Repr

/-- The parsed `studio_config.json` document: a list of tool entries and
the informational `launcher_version` field. -/
structure StudioConfig where
  tools : List Tool
  launcher_version : String
deriving DecidableEq, Repr

/-- The condition of the configuration source on disk: absent file,
present but not valid JSON, or a parsed document. -/
inductive ConfigSource where
  | absent
  | unparsable
  | document (tools : List Tool) (launcher_version : String)
deriving DecidableEq, Repr

/-- Result of a Python expression that may raise: a value or an
exception identified by its class name. -/
inductive PyResult (α : Type) where
  | ok (a : α)
  | exn (name : String)
deriving DecidableEq, Repr

/-- The `open(config_path)` / `json.load(f)` body of `load_config`:
an absent file raises `FileNotFoundError`, invalid JSON raises
`json.JSONDecodeError`, otherwise the parsed document is returned. -/
def openAndParse : ConfigSource → PyResult StudioConfig
  | ConfigSource.absent => PyResult.exn "FileNotFoundError"
  | ConfigSource.unparsable => PyResult.exn "json.JSONDecodeError"
  | ConfigSource.document ts v => PyResult.ok ⟨ts, v⟩

/-- Outcome of `AiCopilotDP.load_config`: the loaded document, a fatal
path (critical dialog then `sys.exit(1)`), or an exception that escapes
the method because only `FileNotFoundError` is caught. -/
inductive LoadResult where
  | loaded (cfg : StudioConfig)
  | fatalExit (title : String) (text : String)
  | uncaughtException (name : String)
deriving DecidableEq, Repr

/-- `AiCopilotDP.load_config`: `try: json.load(open(...))` with a single
`except FileNotFoundError` clause showing a critical dialog and calling
`sys.exit(1)`.  Any other exception propagates uncaught. -/
def load_config (src : ConfigSource) : LoadResult :=
  match openAndParse src with
  | PyResult.ok cfg => LoadResult.loaded cfg
  | PyResult.exn e =>
      if e = "FileNotFoundError" then
        LoadResult.fatalExit "Config Error" "studio_config.json not found!"
      else
        LoadResult.uncaughtException e

/-- `AiCopilotDP.get_tool_by_id`: iterate the configured tools in order
and return the first entry whose `id` matches, else `None`. -/
def get_tool_by_id (tools : List Tool) (tool_id : String) : Option Tool :=
  match tools with
  | [] => none
  | t :: rest => if t.id = tool_id then some t else get_tool_by_id rest tool_id

/-! ## The active-process table (a Python dict keyed by tool id) -/

/-- The `active_processes` dict: tool id to a process identity. -/
abbrev ProcTable := List (String × Nat)

/-- Python dict assignment `d[k] = v`: replace the value at an existing
key in place, otherwise append the new binding. -/
def dictInsert (d : ProcTable) (k : String) (v : Nat) : ProcTable :=
  match d with
  | [] => [(k, v)]
  | (k₁, v₁) :: rest =>
      if k₁ = k then (k, v) :: rest else (k₁, v₁) :: dictInsert rest k v

/-- Python `del d[k]` guarded by `k in d`: drop the binding at `k`
(the first one, which is the only one for a well-formed dict). -/
def dictErase (d : ProcTable) (k : String) : ProcTable :=
  match d with
  | [] => []
  | (k₁, v₁) :: rest =>
      if k₁ = k then rest else (k₁, v₁) :: dictErase rest k

/-- Python `d[k]` lookup as an option. -/
def dictGet (d : ProcTable) (k : String) : Option Nat :=
  match d with
  | [] => none
  | (k₁, v₁) :: rest => if k₁ = k then some v₁ else dictGet rest k

/-- Number of bindings a table holds for a key (1 at most for any table
reachable from the empty dict). -/
def countKey (d : ProcTable) (k : String) : Nat :=
  match d with
  | [] => 0
  | (k₁, _) :: rest => (if k₁ = k then 1 else 0) + countKey rest k

/-! ## The supervisor (launch / terminal observations / close) -/

/-- An observable side effect of a controller method, in program order:
dialogs, window visibility changes, and child-process spawns. -/
inductive Action where
  | warnDialog (title : String) (text : String)
  | criticalDialog (title : String) (text : String)
  | hideWindow
  | showWindow
  | activateWindow
  | spawnProcess (program : String) (args : List String) (workingDir : String)
deriving DecidableEq, Repr

/-- The controller state the supervision claims range over: the loaded
tool list and the `active_processes` table. -/
structure LauncherState where
  tools : List Tool
  active : ProcTable
deriving DecidableEq, Repr

/-- `tool_path / ".venv" / "Scripts" / "python.exe"`: the private
runtime interpreter checked before launch. -/
def venvPython (tool : Tool) : String :=
  tool.path ++ "/.venv/Scripts/python.exe"

/-- `tool_path / tool_info['entry_point']`: the script handed to the
child process. -/
def entryPoint (tool : Tool) : String :=
  tool.path ++ "/" ++ tool.entry_point

/-- `AiCopilotDP.launch_tool`, with the filesystem abstracted as the
set of existing paths `fs` and the fresh `QProcess` identity as `pid`:
look the tool up by id (warn and return on a miss), check only that the
venv interpreter exists (warn and return on a miss), then hide the
launcher, spawn the child, and record the handle by dict assignment. -/
def launch_tool (fs : String → Bool) (s : LauncherState) (tool_id : String)
    (pid : Nat) : LauncherState × List Action :=
  match get_tool_by_id s.tools tool_id with
  | none =>
      (s, [Action.warnDialog "Tool Not Found"
            ("Tool '" ++ tool_id ++ "' not registered.")])
  | some tool =>
      if fs (venvPython tool) then
        ({ s with active := dictInsert s.active tool_id pid },
         [Action.hideWindow,
          Action.spawnProcess (venvPython tool) [entryPoint tool] tool.path])
      else
        (s, [Action.warnDialog "Environment Missing"
              ("Virtual environment not found for " ++ tool.display_name ++ ".")])

/-- `AiCopilotDP.on_tool_finished`: drop the handle if present, then
show and refocus the launcher. -/
def on_tool_finished (s : LauncherState) (tool_id : String) :
    LauncherState × List Action :=
  ({ s with active := dictErase s.active tool_id },
   [Action.showWindow, Action.activateWindow])

/-- `AiCopilotDP.on_tool_error`: look the tool up, show a critical
dialog naming it, then delegate to `on_tool_finished`.  The lookup
result is dereferenced unconditionally (`tool_info['display_name']`),
so an unregistered id makes the Python handler raise: `none` here. -/
def on_tool_error (s : LauncherState) (tool_id : String) :
    Option (LauncherState × List Action) :=
  match get_tool_by_id s.tools tool_id with
  | none => none
  | some tool =>
      let r := on_tool_finished s tool_id
      some (r.1,
        Action.criticalDialog "Tool Error"
          (tool.display_name ++ " encountered an error.") :: r.2)

/-- The user's answer to the "Tools are still running. Close anyway?"
question dialog. -/
inductive Reply where
  | yes
  | no
deriving DecidableEq, Repr

/-- What `closeEvent` did: whether the confirmation dialog was shown,
and whether the close event was accepted (vs `event.ignore()`). -/
structure CloseOutcome where
  confirmationAsked : Bool
  accepted : Bool
deriving DecidableEq, Repr

/-- `AiCopilotDP.closeEvent`: with a non-empty `active_processes` dict,
ask the question dialog; a `No` reply ignores the event (the controller
keeps running), anything else accepts it. -/
def closeEvent (s : LauncherState) (reply : Reply) : CloseOutcome :=
  if s.active.isEmpty then
    { confirmationAsked := false, accepted := true }
  else
    match reply with
    | Reply.no => { confirmationAsked := true, accepted := false }
    | Reply.yes => { confirmationAsked := true, accepted := true }

/-! ## The status channel readers -/

/-- A parsed status record as the engines write it (`status`,
`progress`, `message`, `timestamp`); the timestamp is modelled as a
totally ordered `Nat`. -/
structure StatusRecord where
  status : String
  progress : Nat
  message : String
  timestamp : Nat
deriving DecidableEq, Repr

/-- One poll tick's view of the status file: not there, raising on
open or parse, or a parsed record. -/
inductive StatusRead where
  | missing
  | unreadable
  | record (r : StatusRecord)
deriving DecidableEq, Repr

/-- The FakeTool GUI state touched by its status poller: the status
label text and whether its poll timer is active. -/
structure FakeToolReader where
  statusLabel : String
  timerActive : Bool
deriving DecidableEq, Repr

/-- `FakeToolGUI.check_engine_status`: if the file exists and parses,
display `"Status: Engine: " ++ message`; any exception is swallowed and
the state kept.  The timer is never stopped here. -/
def check_engine_status (rs : FakeToolReader) (file : StatusRead) :
    FakeToolReader :=
  match file with
  | StatusRead.missing => rs
  | StatusRead.unreadable => rs
  | StatusRead.record r =>
      { rs with statusLabel := "Status: Engine: " ++ r.message }

/-- The Vision_Tester GUI state touched by its status poller: the
progress bar value, the log lines, and whether its poll timer is
active. -/
structure VisionReader where
  progress : Nat
  log : List String
  timerActive : Bool
deriving DecidableEq, Repr

/-- `update_progress_from_status` of the Vision_Tester GUI: on a parsed
record, set the progress bar, append a non-empty message to the log,
and stop the timer when `status` is `'complete'` or `'error'`; a
missing file or a read error leaves everything unchanged. -/
def update_progress_from_status (rs : VisionReader) (file : StatusRead) :
    VisionReader :=
  match file with
  | StatusRead.missing => rs
  | StatusRead.unreadable => rs
  | StatusRead.record r =>
      let rs₁ := { rs with progress := r.progress }
      let rs₂ :=
        if r.message = "" then rs₁ else { rs₁ with log := rs₁.log ++ [r.message] }
      if r.status = "complete" ∨ r.status = "error" then
        { rs₂ with timerActive := false }
      else rs₂

/-! ## Concrete fixtures -/

/-- A registered tool with id `"a"`. -/
def toolA : Tool := ⟨"a", "Tool A", "/tools/a", "main.py", true⟩

/-- A second entry sharing id `"a"` (a duplicate-id configuration). -/
def toolA2 : Tool := ⟨"a", "Tool A copy", "/tools/a2", "main.py", true⟩

/-- A registered tool with id `"b"`. -/
def toolB : Tool := ⟨"b", "Tool B", "/tools/b", "main.py", true⟩

/-- A filesystem on which every path exists. -/
def fsAll : String → Bool := fun _ => true

/-- A filesystem holding only tool A's venv interpreter — in particular
tool A's entry point `/tools/a/main.py` does not exist on it. -/
def fsVenvAOnly : String → Bool :=
  fun p => p == "/tools/a/.venv/Scripts/python.exe"

/-! ## Dictionary lemmas -/

/-- Inserting into a table with at most one binding for `k` leaves
exactly one binding for `k`. -/
theorem countKey_dictInsert_of_le_one (d : ProcTable) (k : String) (v : Nat) :
    countKey d k ≤ 1 → countKey (dictInsert d k v) k = 1 := by
  induction d with
  | nil => intro _; simp [dictInsert, countKey]
  | cons hd tl ih =>
    intro hle
    obtain ⟨k₁, v₁⟩ := hd
    by_cases h : k₁ = k
    · subst h
      simp [dictInsert, countKey] at hle ⊢
      omega
    · simp only [countKey, if_neg h] at hle
      simp only [dictInsert, if_neg h, countKey]
      have := ih (by omega)
      omega

/-- Erasing a key removes exactly one binding for it (if any). -/
theorem countKey_dictErase (d : ProcTable) (k : String) :
    countKey (dictErase d k) k = countKey d k - 1 := by
  induction d with
  | nil => rfl
  | cons hd tl ih =>
    obtain ⟨k₁, v₁⟩ := hd
    by_cases h : k₁ = k
    · simp only [dictErase, if_pos h, countKey, if_pos h]
      omega
    · simp only [dictErase, if_neg h, countKey, if_neg h, ih]
      omega

/-- Lookup after insert returns the inserted value. -/
theorem dictGet_dictInsert (d : ProcTable) (k : String) (v : Nat) :
    dictGet (dictInsert d k v) k = some v := by
  induction d with
  | nil => simp [dictInsert, dictGet]
  | cons hd tl ih =>
    obtain ⟨k₁, v₁⟩ := hd
    by_cases h : k₁ = k
    · simp [dictInsert, dictGet, h]
    · simp [dictInsert, dictGet, h, ih]

/-- A successful launch only touches the `active` table. -/
theorem launch_tool_success_eq (fs : String → Bool) (s : LauncherState)
    (tool : Tool) (tool_id : String) (pid : Nat)
    (hreg : get_tool_by_id s.tools tool_id = some tool)
    (henv : fs (venvPython tool) = true) :
    launch_tool fs s tool_id pid =
      ({ s with active := dictInsert s.active tool_id pid },
       [Action.hideWindow,
        Action.spawnProcess (venvPython tool) [entryPoint tool] tool.path]) := by
  simp [launch_tool, hreg, henv]

/-- First-match lookup: with no matching id before it, the entry `t` is
the one returned, whatever (including duplicates of `t.id`) comes after. -/
theorem get_tool_by_id_append (pre : List Tool) (t : Tool) (post : List Tool) :
    (∀ t' ∈ pre, t'.id ≠ t.id) →
    get_tool_by_id (pre ++ t :: post) t.id = some t := by
  induction pre with
  | nil => intro _; simp [get_tool_by_id]
  | cons hd tl ih =>
    intro hpre
    simp only [List.cons_append, get_tool_by_id]
    rw [if_neg (hpre hd (List.mem_cons_self hd tl))]
    exact ih fun t' ht' => hpre t' (List.mem_cons_of_mem hd ht')

/-! ## Claim theorems -/

/-- C1 (counterexample): the status readers have no timestamp guard.
Feeding the FakeTool reader a record with timestamp 2 (message
`forty`) and then one with timestamp 1 (message `ten`) leaves the label
at the older record's content, not at timestamp 2's content; likewise
the Vision_Tester progress bar regresses from 40 to 10. -/
theorem C1_reader_regress_counterexample :
    (1 : Nat) < 2
    ∧ (check_engine_status ⟨"Status: Ready", true⟩
        (StatusRead.record ⟨"running", 40, "forty", 2⟩)).statusLabel
        = "Status: Engine: forty"
    ∧ (check_engine_status
        (check_engine_status ⟨"Status: Ready", true⟩
          (StatusRead.record ⟨"running", 40, "forty", 2⟩))
        (StatusRead.record ⟨"running", 10, "ten", 1⟩)).statusLabel
        = "Status: Engine: ten"
    ∧ "Status: Engine: ten" ≠ "Status: Engine: forty"
    ∧ (update_progress_from_status
        (update_progress_from_status ⟨0, [], true⟩
          (StatusRead.record ⟨"running", 40, "forty", 2⟩))
        (StatusRead.record ⟨"running", 10, "ten", 1⟩)).progress = 10 :=
  ⟨by decide, rfl, rfl, by decide, by decide⟩

/-- C1 (amended): the readers display the content of the most recently
parsed record regardless of its timestamp — last read wins, so a stale
record does regress the display — while a missing or unreadable file
leaves the previous display unchanged. -/
theorem C1_last_read_wins (frs : FakeToolReader) (vrs : VisionReader)
    (r₁ r₂ : StatusRecord) :
    (check_engine_status (check_engine_status frs (StatusRead.record r₂))
        (StatusRead.record r₁)).statusLabel = "Status: Engine: " ++ r₁.message
    ∧ (update_progress_from_status
        (update_progress_from_status vrs (StatusRead.record r₂))
        (StatusRead.record r₁)).progress = r₁.progress
    ∧ check_engine_status frs StatusRead.missing = frs
    ∧ check_engine_status frs StatusRead.unreadable = frs
    ∧ update_progress_from_status vrs StatusRead.missing = vrs
    ∧ update_progress_from_status vrs StatusRead.unreadable = vrs := by
  refine ⟨rfl, ?_, rfl, rfl, rfl, rfl⟩
  set vrs₁ := update_progress_from_status vrs (StatusRead.record r₂)
  by_cases h₁ : r₁.message = "" <;>
    by_cases h₂ : (r₁.status = "complete" ∨ r₁.status = "error") <;>
      simp [update_progress_from_status, h₁, h₂]

/-- C2 (counterexample): with a live handle `("a", 1)` in the table, a
second `launch_tool` of `"a"` does not fail with an already-running
warning — it hides the launcher and spawns a second child — and the
handle table does not stay unchanged: the handle is replaced by the new
process identity. -/
theorem C2_relaunch_counterexample :
    (launch_tool fsAll ⟨[toolA], [("a", 1)]⟩ "a" 2).2
      = [Action.hideWindow,
         Action.spawnProcess "/tools/a/.venv/Scripts/python.exe"
           ["/tools/a/main.py"] "/tools/a"]
    ∧ (launch_tool fsAll ⟨[toolA], [("a", 1)]⟩ "a" 2).1.active = [("a", 2)]
    ∧ ([("a", 2)] : ProcTable) ≠ [("a", 1)] :=
  ⟨by decide, by decide, by decide⟩

/-- C2 (amended): relaunching a tool id whose handle is still live is
not guarded: the launch proceeds and the dict assignment replaces the
existing handle, so afterwards exactly one handle for the id exists and
it is bound to the new process (the old one is no longer tracked). -/
theorem C2_relaunch_replaces_handle (fs : String → Bool) (s : LauncherState)
    (tool : Tool) (tool_id : String) (oldPid newPid : Nat)
    (hreg : get_tool_by_id s.tools tool_id = some tool)
    (henv : fs (venvPython tool) = true)
    (_hlive : dictGet s.active tool_id = some oldPid)
    (hcount : countKey s.active tool_id ≤ 1) :
    countKey (launch_tool fs s tool_id newPid).1.active tool_id = 1
    ∧ dictGet (launch_tool fs s tool_id newPid).1.active tool_id = some newPid := by
  rw [launch_tool_success_eq fs s tool tool_id newPid hreg henv]
  exact ⟨countKey_dictInsert_of_le_one s.active tool_id newPid hcount,
         dictGet_dictInsert s.active tool_id newPid⟩

/-- C2 witness: the amended theorem applied to the concrete relaunch of
tool `"a"` while handle `("a", 1)` is live. -/
theorem C2_relaunch_replaces_handle_witness :
    countKey (launch_tool fsAll ⟨[toolA], [("a", 1)]⟩ "a" 2).1.active "a" = 1
    ∧ dictGet (launch_tool fsAll ⟨[toolA], [("a", 1)]⟩ "a" 2).1.active "a" = some 2 :=
  C2_relaunch_replaces_handle fsAll ⟨[toolA], [("a", 1)]⟩ toolA "a" 1 2
    (by decide) rfl (by decide) (by decide)

/-- C3: after a successful launch of a registered tool with a valid
environment, exactly one handle for its id is in the table; after the
corresponding finished observation (or the error observation, which
delegates to it) no handle remains; and a subsequent launch of the same
id succeeds again (hide + spawn). -/
theorem C3_handle_lifecycle (fs : String → Bool) (s : LauncherState)
    (tool : Tool) (tool_id : String) (pid pid₂ : Nat)
    (hreg : get_tool_by_id s.tools tool_id = some tool)
    (henv : fs (venvPython tool) = true)
    (hcount : countKey s.active tool_id ≤ 1) :
    countKey (launch_tool fs s tool_id pid).1.active tool_id = 1
    ∧ countKey
        (on_tool_finished (launch_tool fs s tool_id pid).1 tool_id).1.active
        tool_id = 0
    ∧ (on_tool_error (launch_tool fs s tool_id pid).1 tool_id).map
        (fun r => countKey r.1.active tool_id) = some 0
    ∧ (launch_tool fs
        (on_tool_finished (launch_tool fs s tool_id pid).1 tool_id).1
        tool_id pid₂).2
      = [Action.hideWindow,
         Action.spawnProcess (venvPython tool) [entryPoint tool] tool.path] := by
  rw [launch_tool_success_eq fs s tool tool_id pid hreg henv]
  have hone : countKey (dictInsert s.active tool_id pid) tool_id = 1 :=
    countKey_dictInsert_of_le_one s.active tool_id pid hcount
  have hzero :
      countKey (dictErase (dictInsert s.active tool_id pid) tool_id) tool_id = 0 := by
    rw [countKey_dictErase, hone]
  refine ⟨hone, ?_, ?_, ?_⟩
  · simpa [on_tool_finished] using hzero
  · simp [on_tool_error, hreg, on_tool_finished]
    exact hzero
  · exact congrArg Prod.snd
      (launch_tool_success_eq fs
        (on_tool_finished { s with active := dictInsert s.active tool_id pid }
          tool_id).1
        tool tool_id pid₂ hreg henv)

/-- C3 witness: the lifecycle theorem applied to the concrete launch of
tool `"a"` from an empty table. -/
theorem C3_handle_lifecycle_witness :
    countKey (launch_tool fsAll ⟨[toolA], []⟩ "a" 1).1.active "a" = 1
    ∧ countKey
        (on_tool_finished (launch_tool fsAll ⟨[toolA], []⟩ "a" 1).1 "a").1.active
        "a" = 0
    ∧ (on_tool_error (launch_tool fsAll ⟨[toolA], []⟩ "a" 1).1 "a").map
        (fun r => countKey r.1.active "a") = some 0
    ∧ (launch_tool fsAll
        (on_tool_finished (launch_tool fsAll ⟨[toolA], []⟩ "a" 1).1 "a").1
        "a" 2).2
      = [Action.hideWindow,
         Action.spawnProcess (venvPython toolA) [entryPoint toolA] toolA.path] :=
  C3_handle_lifecycle fsAll ⟨[toolA], []⟩ toolA "a" 1 2 (by decide) rfl (by decide)

/-- C4 (counterexample): the pre-launch environment check does not
verify the entry point.  On a filesystem holding only tool A's venv
interpreter — its entry point `/tools/a/main.py` does not exist — the
launch still proceeds to hide-and-spawn and records a handle, instead
of failing with an entry-point-missing reason. -/
theorem C4_entry_point_unchecked_counterexample :
    fsVenvAOnly (entryPoint toolA) = false
    ∧ (launch_tool fsVenvAOnly ⟨[toolA], []⟩ "a" 1).2
        = [Action.hideWindow,
           Action.spawnProcess "/tools/a/.venv/Scripts/python.exe"
             ["/tools/a/main.py"] "/tools/a"]
    ∧ (launch_tool fsVenvAOnly ⟨[toolA], []⟩ "a" 1).1.active = [("a", 1)] :=
  ⟨by decide, by decide, by decide⟩

/-- C4 (amended): the only environment check before launch is that the
bundle's venv interpreter path exists; when it does not, the launch
aborts with a single Environment Missing warning naming the tool, the
state is unchanged, and no handle is created. -/
theorem C4_env_check_runtime_only (fs : String → Bool) (s : LauncherState)
    (tool : Tool) (tool_id : String) (pid : Nat)
    (hreg : get_tool_by_id s.tools tool_id = some tool)
    (henv : fs (venvPython tool) = false) :
    (launch_tool fs s tool_id pid).1 = s
    ∧ (launch_tool fs s tool_id pid).2
        = [Action.warnDialog "Environment Missing"
            ("Virtual environment not found for " ++ tool.display_name ++ ".")] := by
  simp [launch_tool, hreg, henv]

/-- C4 witness: the amended theorem at tool `"a"` on the empty
filesystem. -/
theorem C4_env_check_runtime_only_witness :
    (launch_tool (fun _ => false) ⟨[toolA], []⟩ "a" 1).1 = ⟨[toolA], []⟩
    ∧ (launch_tool (fun _ => false) ⟨[toolA], []⟩ "a" 1).2
        = [Action.warnDialog "Environment Missing"
            ("Virtual environment not found for " ++ toolA.display_name ++ ".")] :=
  C4_env_check_runtime_only (fun _ => false) ⟨[toolA], []⟩ toolA "a" 1
    (by decide) rfl

/-- C5: when the spawn-error observation fires for a registered tool id
with at most one live handle, the handler surfaces a critical dialog
naming the tool, shows the launcher again, and erases the handle, so no
handle for that id remains in the table. -/
theorem C5_spawn_failure_cleanup (s : LauncherState) (tool : Tool)
    (tool_id : String)
    (hreg : get_tool_by_id s.tools tool_id = some tool)
    (hcount : countKey s.active tool_id ≤ 1) :
    on_tool_error s tool_id = some
      ({ s with active := dictErase s.active tool_id },
       [Action.criticalDialog "Tool Error"
          (tool.display_name ++ " encountered an error."),
        Action.showWindow, Action.activateWindow])
    ∧ countKey (dictErase s.active tool_id) tool_id = 0 := by
  constructor
  · simp [on_tool_error, hreg, on_tool_finished]
  · rw [countKey_dictErase]
    omega

/-- C5 witness: the spawn-failure theorem at tool `"a"` with its handle
live. -/
theorem C5_spawn_failure_cleanup_witness :
    on_tool_error ⟨[toolA], [("a", 1)]⟩ "a" = some
      (⟨[toolA], dictErase [("a", 1)] "a"⟩,
       [Action.criticalDialog "Tool Error"
          (toolA.display_name ++ " encountered an error."),
        Action.showWindow, Action.activateWindow])
    ∧ countKey (dictErase [("a", 1)] "a") "a" = 0 :=
  C5_spawn_failure_cleanup ⟨[toolA], [("a", 1)]⟩ toolA "a" (by decide) (by decide)

/-- C6 (counterexample): a configuration document whose two entries
share id `"a"` loads successfully — no malformed-config failure, no
fatal dialog — and a JSON-unparsable file raises an uncaught exception
rather than presenting a fatal user-visible error. -/
theorem C6_malformed_not_rejected_counterexample :
    toolA.id = toolA2.id
    ∧ load_config (ConfigSource.document [toolA, toolA2] "1.0.0")
        = LoadResult.loaded ⟨[toolA, toolA2], "1.0.0"⟩
    ∧ load_config ConfigSource.unparsable
        = LoadResult.uncaughtException "json.JSONDecodeError" :=
  ⟨rfl, rfl, rfl⟩

/-- C6 (amended): registry load fails fatally — critical dialog
`studio_config.json not found!` followed by exit — exactly when the
configuration file is absent; every parsed document is accepted as-is
(duplicate ids and missing structure are not detected at load time),
and an unparsable document escapes as an uncaught exception. -/
theorem C6_fatal_only_when_absent (src : ConfigSource) :
    (load_config src
        = LoadResult.fatalExit "Config Error" "studio_config.json not found!"
      ↔ src = ConfigSource.absent)
    ∧ (∀ ts v, src = ConfigSource.document ts v →
        load_config src = LoadResult.loaded ⟨ts, v⟩) := by
  cases src <;> simp [load_config, openAndParse]

/-- C7 (counterexample): observing a record whose status is `stopped`
or `completed` — both in the spec's stop set — stops neither reader's
poll timer: Vision_Tester compares against `complete`/`error` and
FakeTool never stops its timer at all. -/
theorem C7_stop_statuses_counterexample :
    (update_progress_from_status ⟨0, [], true⟩
      (StatusRead.record ⟨"stopped", 0, "Stopped by user", 5⟩)).timerActive = true
    ∧ (update_progress_from_status ⟨0, [], true⟩
        (StatusRead.record
          ⟨"completed", 100, "Test completed successfully", 6⟩)).timerActive = true
    ∧ (check_engine_status ⟨"Status: Ready", true⟩
        (StatusRead.record ⟨"stopped", 0, "Stopped by user", 5⟩)).timerActive
        = true :=
  ⟨by decide, by decide, rfl⟩

/-- C7 (amended): the Vision_Tester reader stops its poll timer exactly
when a parsed record's status is `complete` or `error` (supervisor
events play no part), and the FakeTool reader never changes its timer
state on any read. -/
theorem C7_reader_stop_condition (vrs : VisionReader) (frs : FakeToolReader)
    (r : StatusRecord) (f : StatusRead) :
    (update_progress_from_status vrs (StatusRead.record r)).timerActive
      = (if r.status = "complete" ∨ r.status = "error" then false
         else vrs.timerActive)
    ∧ (check_engine_status frs f).timerActive = frs.timerActive := by
  constructor
  · by_cases h₁ : r.message = "" <;>
      by_cases h₂ : (r.status = "complete" ∨ r.status = "error") <;>
        simp [update_progress_from_status, h₁, h₂]
  · cases f <;> rfl

/-- C8: when a close is requested while the active-process table is
non-empty, the confirmation question is asked whatever the reply will
be; a `No` reply ignores the event (the controller stays running) and
only a `Yes` reply lets the close proceed. -/
theorem C8_close_requires_confirmation (s : LauncherState)
    (h : s.active ≠ []) :
    (closeEvent s Reply.yes).confirmationAsked = true
    ∧ (closeEvent s Reply.no).confirmationAsked = true
    ∧ (closeEvent s Reply.no).accepted = false
    ∧ (closeEvent s Reply.yes).accepted = true := by
  rcases hs : s.active with _ | ⟨p, rest⟩
  · exact absurd hs h
  · simp [closeEvent, hs]

/-- C8 witness: the confirmation theorem with one live handle. -/
theorem C8_close_requires_confirmation_witness :
    (closeEvent ⟨[toolA], [("a", 1)]⟩ Reply.yes).confirmationAsked = true
    ∧ (closeEvent ⟨[toolA], [("a", 1)]⟩ Reply.no).confirmationAsked = true
    ∧ (closeEvent ⟨[toolA], [("a", 1)]⟩ Reply.no).accepted = false
    ∧ (closeEvent ⟨[toolA], [("a", 1)]⟩ Reply.yes).accepted = true :=
  C8_close_requires_confirmation ⟨[toolA], [("a", 1)]⟩ (by decide)

/-- C9: once the environment check passes, the launch trace is exactly
hide-the-window followed by the spawn — so the controller is hidden
before the child is started, whatever becomes of the spawn — the launch
itself never shows the window, and the terminal finished handler is
what shows it again. -/
theorem C9_hide_before_spawn (fs : String → Bool) (s : LauncherState)
    (tool : Tool) (tool_id : String) (pid : Nat)
    (hreg : get_tool_by_id s.tools tool_id = some tool)
    (henv : fs (venvPython tool) = true) :
    (launch_tool fs s tool_id pid).2
      = [Action.hideWindow,
         Action.spawnProcess (venvPython tool) [entryPoint tool] tool.path]
    ∧ Action.showWindow ∉ (launch_tool fs s tool_id pid).2
    ∧ Action.showWindow ∈ (on_tool_finished s tool_id).2 := by
  have htrace := congrArg Prod.snd
    (launch_tool_success_eq fs s tool tool_id pid hreg henv)
  refine ⟨htrace, ?_, ?_⟩
  · rw [htrace]
    simp [on_tool_finished]
  · simp [on_tool_finished]

/-- C9 witness: the hide-before-spawn theorem at the concrete launch of
tool `"a"`. -/
theorem C9_hide_before_spawn_witness :
    (launch_tool fsAll ⟨[toolA], []⟩ "a" 1).2
      = [Action.hideWindow,
         Action.spawnProcess (venvPython toolA) [entryPoint toolA] toolA.path]
    ∧ Action.showWindow ∉ (launch_tool fsAll ⟨[toolA], []⟩ "a" 1).2
    ∧ Action.showWindow ∈ (on_tool_finished ⟨[toolA], []⟩ "a").2 :=
  C9_hide_before_spawn fsAll ⟨[toolA], []⟩ toolA "a" 1 (by decide) rfl

/-- C10: a document containing duplicate ids loads without rejection,
and lookup by an id returns the first entry carrying it in configuration
order — whatever entries with no matching id precede it and whatever
entries (duplicates of the id included) follow it. -/
theorem C10_first_match_wins (pre post : List Tool) (t : Tool) (v : String)
    (hpre : ∀ t' ∈ pre, t'.id ≠ t.id) :
    get_tool_by_id (pre ++ t :: post) t.id = some t
    ∧ load_config (ConfigSource.document (pre ++ t :: post) v)
        = LoadResult.loaded ⟨pre ++ t :: post, v⟩ :=
  ⟨get_tool_by_id_append pre t post hpre, rfl⟩

/-- C10 witness: lookup of id `"a"` in `[toolB, toolA, toolA2]`, where
`toolA2` duplicates the id, returns the first match `toolA`, and the
duplicate-id document loads. -/
theorem C10_first_match_wins_witness :
    get_tool_by_id ([toolB] ++ toolA :: [toolA2]) toolA.id = some toolA
    ∧ load_config (ConfigSource.document ([toolB] ++ toolA :: [toolA2]) "1.0.0")
        = LoadResult.loaded ⟨[toolB] ++ toolA :: [toolA2], "1.0.0"⟩ :=
  C10_first_match_wins [toolB] [toolA2] toolA "1.0.0" (by decide)

end AiCopilot
